import Mathlib

/-!
Formal model of a CNI network plugin (`calico_cni.py` and `util.py`).

The development shallowly embeds the plugin's ADD/DELETE orchestration,
its `CNI_ARGS` parsing, its IPAM-binary search, and its environment
handling as pure Lean functions.  External collaborators (the container
engine probe, the datastore client, the netns/veth layer, the spawned
IPAM child process, `netaddr` address parsing and the file system) are
modelled as explicit oracle fields of a `World` record; the Python
standard-library `json` module is modelled by an executable parser and
serializer over a `Json` type.  Process exit (`sys.exit`) and uncaught
exceptions are modelled with an explicit `PyExit` outcome threaded
through a small step type.
-/

namespace CalicoCni

/-- Character class `[a-zA-Z0-9/\.\-\_ ]` of the compiled regular
expression `CNI_ARGS_RE` in `calico_cni.py`. -/
def isArgChar (c : Char) : Bool :=
  c.isLower || c.isUpper || c.isDigit || c == '/' || c == '.' || c == '-' ||
    c == '_' || c == ' '

/-- Whitespace characters removed by Python `str.strip()`. -/
def isPySpace (c : Char) : Bool :=
  c == ' ' || c == '\t' || c == '\n' || c == '\r' || c == '\x0b' || c == '\x0c'

/-- Python `str.strip()` over a character list: whitespace is removed from
both ends. -/
def pyStrip (l : List Char) : List Char :=
  ((l.dropWhile isPySpace).reverse.dropWhile isPySpace).reverse

/-- One attempt of the compiled pattern
`([a-zA-Z0-9/\.\-\_ ]+)=([a-zA-Z0-9/\.\-\_ ]+)(?:;|$)` anchored at the
start of the character list.  Because `=`, `;` and the end of input are
outside the character class, the greedy groups are forced to be the
maximal class runs, so the backtracking search is deterministic.  The
`$` anchor matches at the end of the subject or just before a final
newline, exactly as in Python (no MULTILINE flag); since scanning only
ever proceeds on suffixes of the subject, a remaining `['\n']` is
precisely that final-newline position.  On success the captured groups
and the remainder of the subject after the match are returned. -/
def matchHere (s : List Char) : Option ((List Char × List Char) × List Char) :=
  let k := s.takeWhile isArgChar
  if k.isEmpty then none
  else
    match s.drop k.length with
    | '=' :: s2 =>
      let v := s2.takeWhile isArgChar
      if v.isEmpty then none
      else
        match s2.drop v.length with
        | [] => some ((k, v), [])
        | ';' :: rest => some ((k, v), rest)
        | ['\n'] => some ((k, v), ['\n'])
        | _ => none
    | _ => none

/-- Fuel-indexed scan of `re.findall`: non-overlapping matches are
collected left to right; when no match starts at the current position
the scan advances one character. -/
def findallAux : Nat → List Char → List (List Char × List Char)
  | 0, _ => []
  | Nat.succ fuel, s =>
    match matchHere s with
    | some (kv, rest) => kv :: findallAux fuel rest
    | none =>
      match s with
      | [] => []
      | _ :: t => findallAux fuel t

/-- Model of `CNI_ARGS_RE.findall` over a character list. -/
def findallCore (s : List Char) : List (List Char × List Char) :=
  findallAux s.length s

/-- Model of `CNI_ARGS_RE.findall` on a string: the list of captured
`(key, value)` group pairs in match order. -/
def pyFindall (s : String) : List (String × String) :=
  (findallCore s.data).map (fun p => (String.mk p.1, String.mk p.2))

/-- Python dictionary assignment `d[k] = v`: if the key is already bound
its binding is replaced in place, otherwise the pair is appended. -/
def dictInsert (m : List (String × String)) (k v : String) :
    List (String × String) :=
  if m.any (fun p => p.1 == k) then
    m.map (fun p => if p.1 = k then (k, v) else p)
  else m ++ [(k, v)]

/-- Python dictionary lookup `d[k]` on the entry list: the value of the
(unique) entry with the given key. -/
def dictGet (m : List (String × String)) (k : String) : Option String :=
  match m with
  | [] => none
  | p :: t => if p.1 = k then some p.2 else dictGet t k

/-- Model of `CniPlugin.parse_cni_args`: every captured pair of
`CNI_ARGS_RE.findall` is stored into a dictionary under the stripped key
with the stripped value. -/
def parse_cni_args (s : String) : List (String × String) :=
  (findallCore s.data).foldl
    (fun m p => dictInsert m (String.mk (pyStrip p.1)) (String.mk (pyStrip p.2)))
    []

/-! ### JSON model

Model of the Python standard-library `json` module (a collaborator of
the source), restricted to the value forms the plugin exchanges:
`null`, booleans, integers, strings, arrays and objects.  Floating
point literals are outside the model (`jsonLoads` rejects them). -/

inductive Json where
  | null
  | bool (b : Bool)
  | num (n : Int)
  | str (s : String)
  | arr (items : List Json)
  | obj (fields : List (String × Json))

/-- Opening brace character. -/
def lbrace : Char := Char.ofNat 123

/-- Closing brace character. -/
def rbrace : Char := Char.ofNat 125

/-- Lowercase hexadecimal digit for `\uXXXX` escapes. -/
def hexDigit (n : Nat) : Char :=
  if n < 10 then Char.ofNat ('0'.toNat + n) else Char.ofNat ('a'.toNat + n - 10)

/-- Four-digit `\uXXXX` escape. -/
def uEscape (n : Nat) : String :=
  "\\u" ++ String.mk [hexDigit (n / 4096 % 16), hexDigit (n / 256 % 16),
    hexDigit (n / 16 % 16), hexDigit (n % 16)]

/-- Escaping of one character by `json.dumps` with its default
`ensure_ascii=True`. -/
def escapeChar (c : Char) : String :=
  if c == '"' then "\\\""
  else if c == '\\' then "\\\\"
  else if c == '\n' then "\\n"
  else if c == '\r' then "\\r"
  else if c == '\t' then "\\t"
  else if c == '\x08' then "\\b"
  else if c == '\x0c' then "\\f"
  else if c.toNat < 0x20 || c.toNat > 0x7e then
    if c.toNat < 0x10000 then uEscape c.toNat
    else
      uEscape (0xd800 + (c.toNat - 0x10000) / 0x400) ++
        uEscape (0xdc00 + (c.toNat - 0x10000) % 0x400)
  else String.mk [c]

/-- Serialization of a string literal by `json.dumps`. -/
def jsonDumpString (s : String) : String :=
  "\"" ++ String.join (s.data.map escapeChar) ++ "\""

mutual

/-- Model of `json.dumps` with its default separators: elements are
joined by `", "` and object keys are followed by `": "`. -/
def jsonDumps : Json → String
  | .null => "null"
  | .bool true => "true"
  | .bool false => "false"
  | .num n => toString n
  | .str s => jsonDumpString s
  | .arr items => "[" ++ dumpsItems items ++ "]"
  | .obj fields => "\x7b" ++ dumpsFields fields ++ "\x7d"

/-- Array elements of `json.dumps`, joined by `", "`. -/
def dumpsItems : List Json → String
  | [] => ""
  | [j] => jsonDumps j
  | j :: rest => jsonDumps j ++ ", " ++ dumpsItems rest

/-- Object fields of `json.dumps`, joined by `", "`. -/
def dumpsFields : List (String × Json) → String
  | [] => ""
  | [(k, v)] => jsonDumpString k ++ ": " ++ jsonDumps v
  | (k, v) :: rest => jsonDumpString k ++ ": " ++ jsonDumps v ++ ", " ++ dumpsFields rest

end

/-- JSON whitespace skipped by the Python scanner. -/
def skipWs (s : List Char) : List Char :=
  s.dropWhile (fun c => c == ' ' || c == '\t' || c == '\n' || c == '\r')

/-- Value of a single escape character after a backslash, per the table
of the Python JSON decoder. -/
def unescapeChar : Char → Option Char
  | '"' => some '"'
  | '\\' => some '\\'
  | '/' => some '/'
  | 'b' => some (Char.ofNat 8)
  | 'f' => some (Char.ofNat 12)
  | 'n' => some (Char.ofNat 10)
  | 'r' => some (Char.ofNat 13)
  | 't' => some (Char.ofNat 9)
  | _ => none

/-- Value of one hexadecimal digit (both letter cases accepted), written
over code points. -/
def hexVal (c : Char) : Option Nat :=
  let n := c.toNat
  if 48 ≤ n && n ≤ 57 then some (n - 48)
  else if 97 ≤ n && n ≤ 102 then some (n - 87)
  else if 65 ≤ n && n ≤ 70 then some (n - 55)
  else none

/-- Body of a JSON string literal after the opening quote: characters up
to the closing quote, with escape sequences decoded.  Control
characters must be escaped; lone `\uXXXX` surrogate halves are outside
the model. -/
def parseStringChars : List Char → Option (List Char × List Char)
  | [] => none
  | '"' :: rest => some ([], rest)
  | '\\' :: 'u' :: a :: b :: c :: d :: rest =>
    match hexVal a, hexVal b, hexVal c, hexVal d with
    | some ha, some hb, some hc, some hd =>
      let n := ha * 4096 + hb * 256 + hc * 16 + hd
      if n < 0xd800 || 0xe000 ≤ n then
        (parseStringChars rest).map (fun p => (Char.ofNat n :: p.1, p.2))
      else none
    | _, _, _, _ => none
  | '\\' :: e :: rest =>
    match unescapeChar e with
    | some c => (parseStringChars rest).map (fun p => (c :: p.1, p.2))
    | none => none
  | c :: rest =>
    if c.toNat < 0x20 then none
    else (parseStringChars rest).map (fun p => (c :: p.1, p.2))

/-- Digit run to a natural number. -/
def digitsToNat (ds : List Char) : Nat :=
  ds.foldl (fun a c => a * 10 + (c.toNat - '0'.toNat)) 0

/-- Unsigned JSON integer: a digit run without a redundant leading zero,
not continued by a fraction or exponent (floating point is outside the
model). -/
def parseNatChars (s : List Char) : Option (Nat × List Char) :=
  let ds := s.takeWhile Char.isDigit
  if ds.isEmpty then none
  else if 1 < ds.length && ds.head? = some '0' then none
  else
    match s.drop ds.length with
    | '.' :: _ => none
    | 'e' :: _ => none
    | 'E' :: _ => none
    | r => some (digitsToNat ds, r)

/-- Signed JSON integer. -/
def parseNumberChars : List Char → Option (Int × List Char)
  | '-' :: rest => (parseNatChars rest).map (fun p => (-(p.1 : Int), p.2))
  | s => (parseNatChars s).map (fun p => ((p.1 : Int), p.2))

/-- Python dictionary construction while decoding an object: later
bindings of a repeated key replace earlier ones. -/
def objInsert (m : List (String × Json)) (k : String) (v : Json) :
    List (String × Json) :=
  if m.any (fun p => p.1 == k) then
    m.map (fun p => if p.1 == k then (k, v) else p)
  else m ++ [(k, v)]

mutual

/-- Fuel-indexed recursive-descent JSON value parser modelling
`json.loads`. -/
def parseValue : Nat → List Char → Option (Json × List Char)
  | 0, _ => none
  | Nat.succ fuel, s =>
    match skipWs s with
    | '"' :: rest =>
      (parseStringChars rest).map (fun p => (Json.str (String.mk p.1), p.2))
    | '[' :: rest =>
      match skipWs rest with
      | ']' :: r => some (Json.arr [], r)
      | _ => (parseItems fuel rest).map (fun p => (Json.arr p.1, p.2))
    | 't' :: 'r' :: 'u' :: 'e' :: rest => some (Json.bool true, rest)
    | 'f' :: 'a' :: 'l' :: 's' :: 'e' :: rest => some (Json.bool false, rest)
    | 'n' :: 'u' :: 'l' :: 'l' :: rest => some (Json.null, rest)
    | c :: rest =>
      if c == lbrace then
        match skipWs rest with
        | c2 :: r2 =>
          if c2 == rbrace then some (Json.obj [], r2)
          else
            (parseFields fuel rest).map
              (fun p => (Json.obj (p.1.foldl (fun m f => objInsert m f.1 f.2) []), p.2))
        | [] => none
      else if c == '-' || c.isDigit then
        (parseNumberChars (c :: rest)).map (fun p => (Json.num p.1, p.2))
      else none
    | [] => none

/-- Comma-separated array items up to the closing bracket. -/
def parseItems : Nat → List Char → Option (List Json × List Char)
  | 0, _ => none
  | Nat.succ fuel, s =>
    match parseValue fuel s with
    | some (j, r) =>
      match skipWs r with
      | ',' :: r2 => (parseItems fuel r2).map (fun p => (j :: p.1, p.2))
      | ']' :: r2 => some ([j], r2)
      | _ => none
    | none => none

/-- Comma-separated object fields up to the closing brace. -/
def parseFields : Nat → List Char → Option (List (String × Json) × List Char)
  | 0, _ => none
  | Nat.succ fuel, s =>
    match skipWs s with
    | '"' :: r =>
      match parseStringChars r with
      | some (kcs, r2) =>
        match skipWs r2 with
        | ':' :: r3 =>
          match parseValue fuel r3 with
          | some (v, r4) =>
            match skipWs r4 with
            | ',' :: r5 =>
              (parseFields fuel r5).map
                (fun p => ((String.mk kcs, v) :: p.1, p.2))
            | c :: r5 =>
              if c == rbrace then some ([(String.mk kcs, v)], r5) else none
            | [] => none
          | none => none
        | _ => none
      | none => none
    | _ => none

end

/-- Model of `json.loads`: parse one JSON value and require only
whitespace to remain. -/
def jsonLoads (s : String) : Option Json :=
  match parseValue (2 * s.length + 2) s.data with
  | some (j, rest) => if skipWs rest = [] then some j else none
  | none => none

/-- Python exceptions raised by subscripting a decoded JSON value. -/
inductive PyErr where
  | keyError
  | typeError
deriving DecidableEq

/-- Subscript access `j[k]` on a decoded JSON value: a missing key of an
object raises `KeyError`; subscripting a non-object with a string key
raises `TypeError`. -/
def jsonGet : Json → String → Except PyErr Json
  | .obj fields, k =>
    match fields.find? (fun p => p.1 == k) with
    | some p => .ok p.2
    | none => .error .keyError
  | _, _ => .error .typeError

/-! ### Process-exit model

`sys.exit(n)` raises `SystemExit` with code `n`; any other uncaught
exception is modelled by `exn`.  `CniPlugin.execute` catches
`SystemExit` and returns its code, and catches every other exception
returning 1. -/

inductive PyExit where
  | sysExit (code : Nat)
  | exn
deriving DecidableEq

/-- Observable state of one plugin invocation: bytes written to standard
output, number of times the IPAM child process was spawned, the stored
`self.ipam_result`, and the externally visible datastore / veth /
profile artifacts for this workload. -/
structure St where
  stdoutData : String
  ipamInvocations : Nat
  ipamResult : Option Json
  endpointPresent : Bool
  vethPresent : Bool
  profileAttached : Bool

/-- Outcome of a piece of plugin code: normal return of a value with the
updated state, or control transferred by `sys.exit` / an uncaught
exception, likewise with the state at that point. -/
inductive Step (α : Type) where
  | ok (a : α) (st : St)
  | exit (e : PyExit) (st : St)

/-! ### External collaborators

The container engine probe, the spawned IPAM child, the datastore
client, the veth layer, `netaddr` and the file system are collaborators
of the source.  Their behavior during one invocation is packaged as
oracle fields of `World`. -/

/-- Result of `DatastoreClient.create_endpoint`. -/
inductive CreateEpResult where
  | ok
  | addrFormatError
  | keyError
deriving DecidableEq

/-- Result of `DatastoreClient.get_endpoint`. -/
inductive EpLookup where
  | found
  | notFound
  | multiple
deriving DecidableEq

/-- Collaborator behavior for one plugin invocation. -/
structure World where
  /-- Engine probe answer `uses_host_networking(container_id)`. -/
  usesHostNetworking : Bool
  /-- `os.path.isfile` on the probed plugin paths. -/
  isfile : String → Bool
  /-- `os.path.abspath` (resolution against the working directory). -/
  abspath : String → String
  /-- Return code of the spawned IPAM child. -/
  ipamRc : Nat
  /-- Standard output captured from the spawned IPAM child. -/
  ipamStdout : String
  /-- Whether `netaddr.IPNetwork` accepts a given CIDR string. -/
  ipNetworkOk : String → Bool
  /-- Behavior of `create_endpoint`. -/
  createEp : CreateEpResult
  /-- Whether `Endpoint.provision_veth` raises. -/
  provisionVethRaises : Bool
  /-- Whether `policy_driver.set_profile` raises. -/
  setProfileRaises : Bool
  /-- Behavior of `get_endpoint` on DELETE. -/
  epLookup : EpLookup
  /-- Endpoint name returned when the lookup succeeds. -/
  epName : String
  /-- Whether a veth named after the endpoint exists before DELETE. -/
  vethInitial : Bool
  /-- Whether `netns.remove_veth` raises. -/
  removeVethRaises : Bool
  /-- Whether `remove_workload` raises `KeyError` (endpoint vanished). -/
  removeWorkloadKeyError : Bool
  /-- Whether `policy_driver.remove_profile` raises. -/
  removeProfileRaises : Bool

/-- Model of Python `str.split` with a one-character separator: every
occurrence splits, adjacent separators yield empty parts, and the empty
string yields the singleton list of the empty string. -/
def pySplitChar (sep : Char) : List Char → List (List Char)
  | [] => [[]]
  | c :: rest =>
    match pySplitChar sep rest with
    | [] => [[c]]
    | h :: t => if c == sep then [] :: h :: t else (c :: h) :: t

/-- Model of POSIX `os.path.join` for two components. -/
def os_path_join (a b : String) : String :=
  if b.data.head? = some '/' then b
  else if a = "" then b
  else if a.data.getLast? = some '/' then a ++ b
  else a ++ "/" ++ b

/-- Loop body of `CniPlugin._find_ipam_plugin`: probe each directory in
order and stop at the first regular file. -/
def findPluginInDirs (isfile : String → Bool) (abspath : String → String)
    (plugin_type : String) : List String → String
  | [] => ""
  | d :: rest =>
    let temp := abspath (os_path_join d plugin_type)
    if isfile temp then temp else findPluginInDirs isfile abspath plugin_type rest

/-- Model of `CniPlugin._find_ipam_plugin`: `CNI_PATH` is split on `:`
and each directory is probed for `<dir>/<ipam.type>`; the first regular
file wins, otherwise the empty string is returned. -/
def find_ipam_plugin (isfile : String → Bool) (abspath : String → String)
    (cni_path plugin_type : String) : String :=
  findPluginInDirs isfile abspath plugin_type
    ((pySplitChar ':' cni_path.data).map String.mk)

/-- Model of `CniPlugin._call_ipam_plugin`: read `ipam.type` from the
network configuration (a missing key or non-object raises and is not
caught here), locate the binary, exit 1 if it was not found, otherwise
spawn the child once and return its exit code and captured standard
output. -/
def call_ipam_plugin (w : World) (cniPath : String) (cfg : Json) (st : St) :
    Step (Nat × String) :=
  match jsonGet cfg "ipam" with
  | .error _ => .exit .exn st
  | .ok ipamCfg =>
    match jsonGet ipamCfg "type" with
    | .ok (.str t) =>
      if find_ipam_plugin w.isfile w.abspath cniPath t = "" then
        .exit (.sysExit 1) st
      else
        .ok (w.ipamRc, w.ipamStdout)
          { st with ipamInvocations := st.ipamInvocations + 1 }
    | .ok _ => .exit .exn st
    | .error _ => .exit .exn st

/-- Model of `CniPlugin._assign_ip`: call the IPAM plugin; on a non-zero
child exit propagate the child's code via `sys.exit`; parse the child's
standard output as JSON (a parse failure exits 1) and store it as
`self.ipam_result`; read `ip4.ip` (a missing key exits 1, subscripting
a non-object propagates `TypeError`); reject a CIDR that `IPNetwork`
does not accept (exit 1).  A non-string `ip4.ip` is rejected by
`netaddr` and exits 1. -/
def assign_ip (w : World) (cniPath : String) (cfg : Json) (st : St) :
    Step String :=
  match call_ipam_plugin w cniPath cfg st with
  | .exit e st => .exit e st
  | .ok (rc, result) st =>
    if rc ≠ 0 then .exit (.sysExit rc) st
    else
      match jsonLoads result with
      | none => .exit (.sysExit 1) st
      | some j =>
        match jsonGet j "ip4" with
        | .error .keyError => .exit (.sysExit 1) { st with ipamResult := some j }
        | .error .typeError => .exit .exn { st with ipamResult := some j }
        | .ok j4 =>
          match jsonGet j4 "ip" with
          | .error .keyError => .exit (.sysExit 1) { st with ipamResult := some j }
          | .error .typeError => .exit .exn { st with ipamResult := some j }
          | .ok (.str ip) =>
            if w.ipNetworkOk ip then .ok ip { st with ipamResult := some j }
            else .exit (.sysExit 1) { st with ipamResult := some j }
          | .ok _ => .exit (.sysExit 1) { st with ipamResult := some j }

/-- Model of `CniPlugin._create_endpoint`: `AddrFormatError` and
`KeyError` from the datastore client each exit 1; on success the
endpoint exists in the datastore. -/
def create_endpoint (w : World) (st : St) : Step Unit :=
  match w.createEp with
  | .ok => .ok () { st with endpointPresent := true }
  | .addrFormatError => .exit (.sysExit 1) st
  | .keyError => .exit (.sysExit 1) st

/-- Model of `CniPlugin._provision_veth`: provision the veth and write
the MAC back with `set_endpoint`; an exception here is not caught. -/
def provision_veth (w : World) (st : St) : Step Unit :=
  if w.provisionVethRaises then .exit .exn st
  else .ok () { st with vethPresent := true }

/-- Model of `policy_driver.set_profile` at the call site in
`CniPlugin.add`; an exception here is not caught. -/
def set_profile (w : World) (st : St) : Step Unit :=
  if w.setProfileRaises then .exit .exn st
  else .ok () { st with profileAttached := true }

/-- Serialization of `self.ipam_result` for the final `print` of
`CniPlugin.add`; `json.dumps(None)` is the string `null`. -/
def dumpIpamResult : Option Json → String
  | none => "null"
  | some j => jsonDumps j

/-- Model of `CniPlugin.add`: the host-networking short circuit exits 0
before any step; then IP assignment, endpoint creation, veth
provisioning and profile attachment run in order, and on full success
the stored IPAM result is re-serialized and printed (with the trailing
newline of `print`). -/
def addRun (w : World) (cniPath : String) (cfg : Json) (st : St) : Step Unit :=
  if w.usesHostNetworking then .exit (.sysExit 0) st
  else
    match assign_ip w cniPath cfg st with
    | .exit e st => .exit e st
    | .ok _ st =>
      match create_endpoint w st with
      | .exit e st => .exit e st
      | .ok _ st =>
        match provision_veth w st with
        | .exit e st => .exit e st
        | .ok _ st =>
          match set_profile w st with
          | .exit e st => .exit e st
          | .ok _ st =>
            .ok () { st with stdoutData := st.stdoutData ++ dumpIpamResult st.ipamResult ++ "\n" }

/-- Model of `CniPlugin._release_ip`: call the IPAM plugin and only log
when the child reports a non-zero exit. -/
def release_ip (w : World) (cniPath : String) (cfg : Json) (st : St) : Step Unit :=
  match call_ipam_plugin w cniPath cfg st with
  | .exit e st => .exit e st
  | .ok _ st => .ok () st

/-- Model of `CniPlugin._get_endpoint`: `KeyError` from the datastore
yields `None`; `MultipleEndpointsMatch` exits 1. -/
def get_endpoint (w : World) (st : St) : Step (Option String) :=
  match w.epLookup with
  | .multiple => .exit (.sysExit 1) st
  | .notFound => .ok none st
  | .found => .ok (some w.epName) st

/-- Model of `CniPlugin._remove_endpoint`: `remove_workload` removes the
datastore entry; its `KeyError` (already absent) is caught and logged. -/
def remove_endpoint (w : World) (st : St) : Step Unit :=
  if w.removeWorkloadKeyError then .ok () { st with endpointPresent := false }
  else .ok () { st with endpointPresent := false }

/-- Model of `policy_driver.remove_profile` at the call site in
`CniPlugin.delete`; an exception here is not caught. -/
def remove_profile (w : World) (st : St) : Step Unit :=
  if w.removeProfileRaises then .exit .exn st
  else .ok () { st with profileAttached := false }

/-- Model of `CniPlugin.delete`: release the IP, look up the endpoint
(exiting 0 when it is absent), remove the veth (`netns.remove_veth` is
not guarded by a handler), remove the endpoint, remove the profile. -/
def deleteRun (w : World) (cniPath : String) (cfg : Json) (st : St) : Step Unit :=
  match release_ip w cniPath cfg st with
  | .exit e st => .exit e st
  | .ok _ st =>
    match get_endpoint w st with
    | .exit e st => .exit e st
    | .ok none st => .exit (.sysExit 0) st
    | .ok (some _) st =>
      if w.removeVethRaises then .exit .exn st
      else
        let st := { st with vethPresent := false }
        match remove_endpoint w st with
        | .exit e st => .exit e st
        | .ok _ st =>
          match remove_profile w st with
          | .exit e st => .exit e st
          | .ok _ st => .ok () st

/-- Model of `CniPlugin.execute`: a normal return yields 0, `SystemExit`
yields its code, any other uncaught exception yields 1. -/
def executeStep : Step Unit → Nat × St
  | .ok _ st => (0, st)
  | .exit (.sysExit c) st => (c, st)
  | .exit .exn st => (1, st)

/-! ### Plugin construction and top level -/

/-- Modelled from the spec: the environment-variable names of the
EnvContract table (their literal values live in the repository's
`constants.py`, which is not among the provided sources). -/
def CNI_COMMAND_ENV : String := "CNI_COMMAND"

/-- Modelled from the spec: see `CNI_COMMAND_ENV`. -/
def CNI_CONTAINERID_ENV : String := "CNI_CONTAINERID"

/-- Modelled from the spec: see `CNI_COMMAND_ENV`. -/
def CNI_NETNS_ENV : String := "CNI_NETNS"

/-- Modelled from the spec: see `CNI_COMMAND_ENV`. -/
def CNI_IFNAME_ENV : String := "CNI_IFNAME"

/-- Modelled from the spec: see `CNI_COMMAND_ENV`. -/
def CNI_ARGS_ENV : String := "CNI_ARGS"

/-- Modelled from the spec: see `CNI_COMMAND_ENV`. -/
def CNI_PATH_ENV : String := "CNI_PATH"

/-- Modelled from the spec: the two command values of the EnvContract
(`constants.py` is not among the provided sources). -/
def CNI_CMD_ADD : String := "ADD"

/-- Modelled from the spec: see `CNI_CMD_ADD`. -/
def CNI_CMD_DELETE : String := "DEL"

/-- Lookup of an environment variable in the process environment. -/
def envLookup (env : List (String × String)) (k : String) : Option String :=
  match env.find? (fun p => p.1 == k) with
  | some p => some p.2
  | none => none


/-- Modelled from the spec: the per-network policy driver
(`policy_drivers.DefaultPolicyDriver`, not among the provided sources)
accepts exactly the network names matching `[A-Za-z0-9._-]+`. -/
def validNetworkName (name : String) : Bool :=
  !name.data.isEmpty &&
    name.data.all (fun c => c.isLower || c.isUpper || c.isDigit || c == '.' ||
      c == '_' || c == '-')

/-- The two policy driver variants constructed by
`CniPlugin._get_policy_driver`. -/
inductive PolicyDriver where
  | perNetwork (networkName : String)
  | kubernetes
deriving DecidableEq

/-- The two container engine variants constructed by
`CniPlugin._get_container_engine`. -/
inductive Engine where
  | defaultEngine
  | docker
deriving DecidableEq

/-- Model of `CniPlugin._get_policy_driver`: a `K8S_POD_NAME` key in the
parsed CNI arguments selects the Kubernetes default driver; otherwise
the per-network default driver is constructed, exiting 1 when it
rejects the network name. -/
def get_policy_driver (cniArgs : List (String × String)) (networkName : String) :
    Except PyExit PolicyDriver :=
  if cniArgs.any (fun p => p.1 == "K8S_POD_NAME") then .ok .kubernetes
  else if validNetworkName networkName then .ok (.perNetwork networkName)
  else .error (.sysExit 1)

/-- Model of `CniPlugin._get_container_engine`: a `K8S_POD_NAME` key in
the parsed CNI arguments selects the Docker-aware engine. -/
def get_container_engine (cniArgs : List (String × String)) : Engine :=
  if cniArgs.any (fun p => p.1 == "K8S_POD_NAME") then .docker
  else .defaultEngine

/-- The fields of a constructed `CniPlugin` used by the model. -/
structure Plugin where
  command : String
  containerId : String
  cniNetns : String
  interface : String
  cniArgs : List (String × String)
  cniPath : String
  networkName : String
  policyDriver : PolicyDriver
  engine : Engine
deriving DecidableEq

/-- Model of `CniPlugin.__init__`: the six `CNI_*` environment variables
are read with plain subscripts in source order (any missing one raises
`KeyError`), `CNI_ARGS` is parsed, `network_config["name"]` is read
(missing raises `KeyError`, a non-object raises `TypeError`), then the
policy driver (which may exit 1) and the container engine are chosen. -/
def cniPluginInit (env : List (String × String)) (networkConfig : Json) :
    Except PyExit Plugin :=
  match envLookup env CNI_COMMAND_ENV with
  | none => .error .exn
  | some command =>
    match envLookup env CNI_CONTAINERID_ENV with
    | none => .error .exn
    | some containerId =>
      match envLookup env CNI_NETNS_ENV with
      | none => .error .exn
      | some cniNetns =>
        match envLookup env CNI_IFNAME_ENV with
        | none => .error .exn
        | some interface =>
          match envLookup env CNI_ARGS_ENV with
          | none => .error .exn
          | some argsRaw =>
            match envLookup env CNI_PATH_ENV with
            | none => .error .exn
            | some cniPath =>
              match jsonGet networkConfig "name" with
              | .ok (.str networkName) =>
                match get_policy_driver (parse_cni_args argsRaw) networkName with
                | .error e => .error e
                | .ok policyDriver =>
                  .ok { command := command, containerId := containerId,
                        cniNetns := cniNetns, interface := interface,
                        cniArgs := parse_cni_args argsRaw, cniPath := cniPath,
                        networkName := networkName,
                        policyDriver := policyDriver,
                        engine := get_container_engine (parse_cni_args argsRaw) }
              | .ok _ => .error .exn
              | .error _ => .error .exn

/-- Observable state at entry of one invocation: nothing written or
spawned yet; for a DELETE the endpoint and veth may pre-exist according
to the world being cleaned up. -/
def initialSt (w : World) (isAdd : Bool) : St :=
  { stdoutData := "", ipamInvocations := 0, ipamResult := none,
    endpointPresent := !isAdd && w.epLookup == .found,
    vethPresent := !isAdd && w.vethInitial,
    profileAttached := false }

/-- Modelled from the spec: one `KEY=VALUE` fragment of the `CNI_ARGS`
grammar, with `KEY` and `VALUE` each matching `[A-Za-z0-9/._- ]+`. -/
def argPairOk (p : List Char × List Char) : Bool :=
  !p.1.isEmpty && !p.2.isEmpty && p.1.all isArgChar && p.2.all isArgChar

/-- Modelled from the spec: rendering of a fragment list back into a
`CNI_ARGS` string per the grammar `(KEY=VALUE)(;KEY=VALUE)*`. -/
def renderArgs : List (List Char × List Char) → List Char
  | [] => []
  | [p] => p.1 ++ '=' :: p.2
  | p :: rest => p.1 ++ '=' :: p.2 ++ ';' :: renderArgs rest

/-- The six recognized `CNI_*` environment variables. -/
def requiredEnvNames : List String :=
  [CNI_COMMAND_ENV, CNI_CONTAINERID_ENV, CNI_NETNS_ENV, CNI_IFNAME_ENV,
    CNI_ARGS_ENV, CNI_PATH_ENV]

/-- Modelled from the spec: the EnvContract table. `CNI_COMMAND`,
`CNI_CONTAINERID` and `CNI_PATH` are required on every invocation;
`CNI_NETNS` and `CNI_IFNAME` only on ADD; `CNI_ARGS` is optional. -/
def satisfiesEnvContract (env : List (String × String)) : Bool :=
  (envLookup env CNI_COMMAND_ENV == some CNI_CMD_ADD ||
    envLookup env CNI_COMMAND_ENV == some CNI_CMD_DELETE) &&
  (envLookup env CNI_CONTAINERID_ENV).isSome &&
  (envLookup env CNI_PATH_ENV).isSome &&
  (if envLookup env CNI_COMMAND_ENV == some CNI_CMD_ADD then
    (envLookup env CNI_NETNS_ENV).isSome && (envLookup env CNI_IFNAME_ENV).isSome
  else true)

/-! ### Concrete fixtures

The network configuration and worlds of the specification's end-to-end
scenarios, used by concrete theorems and witnesses. -/

/-- Network configuration of scenario 1 of the specification. -/
def cfgScenario : Json :=
  Json.obj [("name", Json.str "net1"), ("type", Json.str "x"),
    ("ipam", Json.obj [("type", Json.str "host-local")])]

/-- World of the happy ADD scenario: the IPAM binary is found, the child
succeeds with `10.0.0.5/24`, and every collaborator cooperates. -/
def happyWorld : World :=
  { usesHostNetworking := false, isfile := fun _ => true, abspath := fun s => s,
    ipamRc := 0,
    ipamStdout := "\x7b\"ip4\":\x7b\"ip\":\"10.0.0.5/24\"\x7d\x7d",
    ipNetworkOk := fun _ => true, createEp := .ok,
    provisionVethRaises := false, setProfileRaises := false,
    epLookup := .found, epName := "cali123", vethInitial := true,
    removeVethRaises := false, removeWorkloadKeyError := false,
    removeProfileRaises := false }

/-- World in which IPAM assignment succeeds but its result document
lacks the `ip4` member. -/
def noIp4World : World := { happyWorld with ipamStdout := "\x7b\x7d" }

/-- World of a DELETE in which `netns.remove_veth` raises. -/
def vethErrWorld : World := { happyWorld with removeVethRaises := true }

/-- DELETE environment carrying only the variables the EnvContract
requires for DEL (no `CNI_ARGS`, `CNI_NETNS`, `CNI_IFNAME`). -/
def envDelMinimal : List (String × String) :=
  [("CNI_COMMAND", "DEL"), ("CNI_CONTAINERID", "abc"), ("CNI_PATH", "/opt/cni")]

/-! ### Claims -/

/-- C1: the claim states that every ADD in which IPAM assignment
succeeded but a later step fails runs IPAM release as compensation
before exiting non-zero.  The source does not: at the failing input
below (IPAM child succeeds with result `\x7b\x7d`, which lacks `ip4`),
the ADD exits 1 having spawned the IPAM child exactly once — the
assignment — so no release invocation ever happens and the allocation
leaks.  The endpoint and veth are indeed absent, but the source's own
`TODO` comments mark the missing cleanup; the code contradicts the
documented intent. -/
theorem add_ipam_release_never_attempted :
    (executeStep (addRun noIp4World "/opt/cni" cfgScenario
      (initialSt noIp4World true))).1 = 1 ∧
    (executeStep (addRun noIp4World "/opt/cni" cfgScenario
      (initialSt noIp4World true))).2.ipamInvocations = 1 ∧
    (executeStep (addRun noIp4World "/opt/cni" cfgScenario
      (initialSt noIp4World true))).2.endpointPresent = false ∧
    (executeStep (addRun noIp4World "/opt/cni" cfgScenario
      (initialSt noIp4World true))).2.vethPresent = false := by
  decide

/-- C2 counterexample: the claim states every DELETE exits 0 regardless
of non-catastrophic intermediate errors (among them a veth removal
error), failing only on an ambiguous endpoint lookup.  In the world
below the lookup is unambiguous and `netns.remove_veth` raises; the
exception is not caught in `CniPlugin.delete`, so the invocation exits
1 and the veth remains. -/
theorem delete_veth_error_exits_nonzero :
    vethErrWorld.epLookup ≠ EpLookup.multiple ∧
    (executeStep (deleteRun vethErrWorld "/opt/cni" cfgScenario
      (initialSt vethErrWorld false))).1 = 1 ∧
    (executeStep (deleteRun vethErrWorld "/opt/cni" cfgScenario
      (initialSt vethErrWorld false))).2.vethPresent = true := by
  decide

/-- C3 counterexample: the claim states the ADD-success output is
byte-for-byte the IPAM child's result document.  In the happy world the
child emits `\x7b"ip4":\x7b"ip":"10.0.0.5/24"\x7d\x7d`; the run
succeeds but prints the `json.dumps` re-serialization (which inserts
spaces after colons) followed by the newline of `print`, so the bytes
differ — even ignoring the trailing newline. -/
theorem add_stdout_not_byte_identical :
    (executeStep (addRun happyWorld "/opt/cni" cfgScenario
      (initialSt happyWorld true))).1 = 0 ∧
    (executeStep (addRun happyWorld "/opt/cni" cfgScenario
      (initialSt happyWorld true))).2.stdoutData ≠ happyWorld.ipamStdout ∧
    (executeStep (addRun happyWorld "/opt/cni" cfgScenario
      (initialSt happyWorld true))).2.stdoutData ≠
      happyWorld.ipamStdout ++ "\n" := by
  decide

/-- C5 counterexample: the claim states plugin construction succeeds on
every environment satisfying the EnvContract table, `CNI_ARGS` being
optional and `CNI_NETNS`/`CNI_IFNAME` not required on DEL.  The
environment below satisfies the table for a DEL invocation, yet
`CniPlugin.__init__` subscripts `env` for all six variables, so
construction raises `KeyError`. -/
theorem init_rejects_contract_env :
    satisfiesEnvContract envDelMinimal = true ∧
    cniPluginInit envDelMinimal cfgScenario = Except.error PyExit.exn :=
  ⟨by decide, rfl⟩

/-- C6: when the container-engine probe reports host networking, the
ADD exits 0 before step 1: nothing is written to standard output, the
IPAM child is never spawned, and no endpoint, veth or profile artifact
is created. -/
theorem host_networking_short_circuit (w : World) (cniPath : String)
    (cfg : Json) (h : w.usesHostNetworking = true) :
    executeStep (addRun w cniPath cfg (initialSt w true)) =
      (0, initialSt w true) ∧
    (initialSt w true).stdoutData = "" ∧
    (initialSt w true).ipamInvocations = 0 ∧
    (initialSt w true).endpointPresent = false ∧
    (initialSt w true).vethPresent = false ∧
    (initialSt w true).profileAttached = false := by
  refine ⟨?_, rfl, rfl, by simp [initialSt], by simp [initialSt], rfl⟩
  simp [addRun, executeStep, h]

/-- Witness for `host_networking_short_circuit` at a concrete world. -/
theorem host_networking_short_circuit_witness :
    executeStep (addRun { happyWorld with usesHostNetworking := true }
      "/opt/cni" cfgScenario
      (initialSt { happyWorld with usesHostNetworking := true } true)) =
      (0, initialSt { happyWorld with usesHostNetworking := true } true) :=
  (host_networking_short_circuit { happyWorld with usesHostNetworking := true }
    "/opt/cni" cfgScenario rfl).1

/-- C7 counterexample: the claim states that for every `CNI_ARGS` string
well-formed per the grammar the parsed mapping's entries equal the list
of captured groups.  The string `A=1;A=2` is well-formed (it renders
from two grammar fragments), its captured groups are
`[(A,1), (A,2)]`, but the parsed mapping holds the single entry
`(A, 2)`: dictionary assignment collapses the repeated key. -/
theorem cni_args_entries_mismatch :
    ([(['A'], ['1']), (['A'], ['2'])].all argPairOk) = true ∧
    renderArgs [(['A'], ['1']), (['A'], ['2'])] = "A=1;A=2".data ∧
    pyFindall "A=1;A=2" = [("A", "1"), ("A", "2")] ∧
    parse_cni_args "A=1;A=2" ≠ pyFindall "A=1;A=2" := by
  decide

/-! ### Helper lemmas -/

/-- Appending the empty string on the left is the identity. -/
theorem empty_append_str (s : String) : "" ++ s = s := rfl

/-- The loop of `_find_ipam_plugin` returns the probe of the first
directory whose probe is a regular file. -/
theorem findPluginInDirs_eq (isfile : String → Bool) (abspath : String → String)
    (t : String) (dirs : List String) :
    findPluginInDirs isfile abspath t dirs =
      (match dirs.find? (fun d => isfile (abspath (os_path_join d t))) with
      | some d => abspath (os_path_join d t)
      | none => "") := by
  induction dirs with
  | nil => rfl
  | cons d rest ih =>
    rw [findPluginInDirs]
    cases h : isfile (abspath (os_path_join d t)) <;>
      simp [List.find?_cons, h, ih]

/-- Inversion of `_call_ipam_plugin`: a normal return means the child
was spawned exactly once more and returned the world's exit code and
captured standard output. -/
theorem call_ipam_ok_inv (w : World) (cniPath : String) (cfg : Json) (st : St)
    (rc : Nat) (result : String) (st2 : St)
    (h : call_ipam_plugin w cniPath cfg st = Step.ok (rc, result) st2) :
    rc = w.ipamRc ∧ result = w.ipamStdout ∧
      st2 = { st with ipamInvocations := st.ipamInvocations + 1 } := by
  unfold call_ipam_plugin at h
  iterate 8 (all_goals try split at h)
  all_goals first
    | exact Step.noConfusion h
    | (injection h with h1 h2
       injection h1 with ha hb
       exact ⟨ha.symm, hb.symm, h2.symm⟩)

/-- Inversion of `_assign_ip`: a normal return means the child's output
parsed as JSON and was stored as `self.ipam_result`. -/
theorem assign_ip_ok_inv (w : World) (cniPath : String) (cfg : Json) (st : St)
    (ip : String) (st2 : St)
    (h : assign_ip w cniPath cfg st = Step.ok ip st2) :
    ∃ j, jsonLoads w.ipamStdout = some j ∧
      st2 = { st with ipamInvocations := st.ipamInvocations + 1, ipamResult := some j } := by
  unfold assign_ip at h
  cases hcall : call_ipam_plugin w cniPath cfg st with
  | exit e st3 =>
    rw [hcall] at h
    exact Step.noConfusion h
  | ok p st3 =>
    obtain ⟨rc, result⟩ := p
    obtain ⟨hrc, hres, hst⟩ := call_ipam_ok_inv w cniPath cfg st rc result st3 hcall
    subst hrc
    subst hres
    subst hst
    rw [hcall] at h
    simp only at h
    iterate 8 (all_goals try split at h)
    all_goals first
      | exact Step.noConfusion h
      | (injection h with h1 h2
         exact ⟨_, by assumption, h2.symm⟩)

/-- Inversion of `CniPlugin.add`: a normal return appends exactly the
re-serialized stored IPAM result and a newline to standard output. -/
theorem addRun_ok_inv (w : World) (cniPath : String) (cfg : Json) (st : St)
    (stF : St) (h : addRun w cniPath cfg st = Step.ok () stF) :
    ∃ j, jsonLoads w.ipamStdout = some j ∧
      stF.stdoutData = st.stdoutData ++ jsonDumps j ++ "\n" := by
  unfold addRun at h
  split at h
  · exact Step.noConfusion h
  · cases ha : assign_ip w cniPath cfg st with
    | exit e st3 =>
      rw [ha] at h
      exact Step.noConfusion h
    | ok ip st3 =>
      obtain ⟨j, hj, hst⟩ := assign_ip_ok_inv w cniPath cfg st ip st3 ha
      subst hst
      rw [ha] at h
      simp only at h
      cases hce : w.createEp <;> simp only [create_endpoint, hce] at h
      case addrFormatError => exact Step.noConfusion h
      case keyError => exact Step.noConfusion h
      case ok =>
        cases hpv : w.provisionVethRaises <;>
          simp only [provision_veth, hpv, if_true, if_false] at h
        case true => exact Step.noConfusion h
        case false =>
          cases hsp : w.setProfileRaises <;>
            simp only [set_profile, hsp, if_true, if_false] at h
          case true => exact Step.noConfusion h
          case false =>
            injection h with h1 h2
            refine ⟨j, hj, ?_⟩
            rw [← h2]
            simp [dumpIpamResult]

/-- C8: the IPAM binary is located by splitting `CNI_PATH` on `:`,
probing `<dir>/<ipam.type>` (resolved to an absolute path) for each
directory in order, and returning the first probe that is a regular
file; when no directory yields one, the empty result makes
`_call_ipam_plugin` exit 1 without spawning the child (the state, and
with it the spawn count, is unchanged). -/
theorem ipam_plugin_search_first_match (w : World) (cniPath t : String)
    (cfg ipamCfg : Json) (st : St)
    (h1 : jsonGet cfg "ipam" = Except.ok ipamCfg)
    (h2 : jsonGet ipamCfg "type" = Except.ok (Json.str t)) :
    find_ipam_plugin w.isfile w.abspath cniPath t =
      (match ((pySplitChar ':' cniPath.data).map String.mk).find?
          (fun d => w.isfile (w.abspath (os_path_join d t))) with
      | some d => w.abspath (os_path_join d t)
      | none => "") ∧
    (find_ipam_plugin w.isfile w.abspath cniPath t = "" →
      call_ipam_plugin w cniPath cfg st = Step.exit (PyExit.sysExit 1) st) := by
  constructor
  · exact findPluginInDirs_eq w.isfile w.abspath t _
  · intro hempty
    simp [call_ipam_plugin, h1, h2, hempty]

/-- Witness for `ipam_plugin_search_first_match`: with no regular file
anywhere on the path, the call exits 1 with the entry state intact. -/
theorem ipam_plugin_search_first_match_witness :
    call_ipam_plugin { happyWorld with isfile := fun _ => false } "/opt/cni"
      cfgScenario (initialSt happyWorld true) =
      Step.exit (PyExit.sysExit 1) (initialSt happyWorld true) :=
  (ipam_plugin_search_first_match { happyWorld with isfile := fun _ => false }
    "/opt/cni" "host-local" cfgScenario
    (Json.obj [("type", Json.str "host-local")])
    (initialSt happyWorld true) rfl rfl).2 (by decide)

/-- C9: the Docker-aware engine probe is chosen exactly when the parsed
`CNI_ARGS` mapping contains the key `K8S_POD_NAME`; the same key
selects the Kubernetes default policy driver, and in its absence the
per-network default policy driver is constructed (succeeding whenever
the network name is valid). -/
theorem driver_engine_selection (s : String) (name : String) :
    (get_container_engine (parse_cni_args s) = Engine.docker ↔
      (parse_cni_args s).any (fun p => p.1 == "K8S_POD_NAME") = true) ∧
    ((parse_cni_args s).any (fun p => p.1 == "K8S_POD_NAME") = true →
      get_policy_driver (parse_cni_args s) name =
        Except.ok PolicyDriver.kubernetes) ∧
    ((parse_cni_args s).any (fun p => p.1 == "K8S_POD_NAME") = false →
      validNetworkName name = true →
      get_policy_driver (parse_cni_args s) name =
        Except.ok (PolicyDriver.perNetwork name)) := by
  refine ⟨?_, ?_, ?_⟩
  · cases h : (parse_cni_args s).any (fun p => p.1 == "K8S_POD_NAME") <;>
      simp [get_container_engine, h]
  · intro h
    simp [get_policy_driver, h]
  · intro h hname
    simp [get_policy_driver, h, hname]

/-- Witness for `driver_engine_selection` on `K8S_POD_NAME=foo` and on
the empty argument string with network name `net1`. -/
theorem driver_engine_selection_witness :
    get_container_engine (parse_cni_args "K8S_POD_NAME=foo") = Engine.docker ∧
    get_policy_driver (parse_cni_args "K8S_POD_NAME=foo") "net1" =
      Except.ok PolicyDriver.kubernetes ∧
    get_policy_driver (parse_cni_args "") "net1" =
      Except.ok (PolicyDriver.perNetwork "net1") := by
  refine ⟨?_, ?_, ?_⟩
  · exact (driver_engine_selection "K8S_POD_NAME=foo" "net1").1.mpr (by decide)
  · exact (driver_engine_selection "K8S_POD_NAME=foo" "net1").2.1 (by decide)
  · exact (driver_engine_selection "" "net1").2.2 (by decide) (by decide)

/-- C5 amended: plugin construction reads all six `CNI_*` variables with
plain subscripts, so the absence of any one of them — including
`CNI_ARGS` on any invocation and `CNI_NETNS`/`CNI_IFNAME` on DEL —
raises `KeyError` and construction fails. -/
theorem init_env_all_required (env : List (String × String)) (cfg : Json)
    (k : String) (hk : k ∈ requiredEnvNames) (h : envLookup env k = none) :
    cniPluginInit env cfg = Except.error PyExit.exn := by
  simp only [requiredEnvNames, List.mem_cons, List.not_mem_nil, or_false] at hk
  obtain rfl | rfl | rfl | rfl | rfl | rfl := hk <;>
    (cases h1 : envLookup env CNI_COMMAND_ENV <;>
      cases h2 : envLookup env CNI_CONTAINERID_ENV <;>
      cases h3 : envLookup env CNI_NETNS_ENV <;>
      cases h4 : envLookup env CNI_IFNAME_ENV <;>
      cases h5 : envLookup env CNI_ARGS_ENV <;>
      simp_all [cniPluginInit])

/-- Witness for `init_env_all_required`: the minimal DEL environment
lacks `CNI_ARGS` and construction fails. -/
theorem init_env_all_required_witness :
    "CNI_ARGS" ∈ requiredEnvNames ∧
    envLookup envDelMinimal "CNI_ARGS" = none ∧
    cniPluginInit envDelMinimal cfgScenario = Except.error PyExit.exn :=
  ⟨by decide, by decide,
    init_env_all_required envDelMinimal cfgScenario "CNI_ARGS" (by decide) (by decide)⟩

/-- C2 amended: a DELETE whose endpoint lookup is unambiguous, whose
IPAM binary is found, and whose veth and profile removals do not raise,
exits 0; the IPAM child is spawned exactly once (the release), the
endpoint is absent from the datastore afterwards, and when the endpoint
existed its veth is gone.  (Outside these hypotheses the claim fails:
see the counterexample, and note a missing IPAM binary exits 1 before
any release.) -/
theorem delete_best_effort_cleanup (w : World) (cniPath t : String)
    (cfg ipamCfg : Json)
    (h1 : jsonGet cfg "ipam" = Except.ok ipamCfg)
    (h2 : jsonGet ipamCfg "type" = Except.ok (Json.str t))
    (h3 : find_ipam_plugin w.isfile w.abspath cniPath t ≠ "")
    (h4 : w.epLookup ≠ EpLookup.multiple)
    (h5 : w.removeVethRaises = false)
    (h6 : w.removeProfileRaises = false) :
    (executeStep (deleteRun w cniPath cfg (initialSt w false))).1 = 0 ∧
    (executeStep (deleteRun w cniPath cfg (initialSt w false))).2.ipamInvocations = 1 ∧
    (executeStep (deleteRun w cniPath cfg (initialSt w false))).2.endpointPresent = false ∧
    (w.epLookup = EpLookup.found →
      (executeStep (deleteRun w cniPath cfg (initialSt w false))).2.vethPresent = false) := by
  cases hep : w.epLookup with
  | multiple => exact absurd hep h4
  | notFound =>
    simp [deleteRun, release_ip, call_ipam_plugin, h1, h2, h3, get_endpoint,
      hep, executeStep, initialSt]
  | found =>
    simp [deleteRun, release_ip, call_ipam_plugin, h1, h2, h3, get_endpoint,
      hep, h5, h6, remove_endpoint, remove_profile, executeStep, initialSt]

/-- Witness for `delete_best_effort_cleanup` in the happy world. -/
theorem delete_best_effort_cleanup_witness :
    (executeStep (deleteRun happyWorld "/opt/cni" cfgScenario
      (initialSt happyWorld false))).1 = 0 ∧
    (executeStep (deleteRun happyWorld "/opt/cni" cfgScenario
      (initialSt happyWorld false))).2.ipamInvocations = 1 ∧
    (executeStep (deleteRun happyWorld "/opt/cni" cfgScenario
      (initialSt happyWorld false))).2.endpointPresent = false ∧
    (executeStep (deleteRun happyWorld "/opt/cni" cfgScenario
      (initialSt happyWorld false))).2.vethPresent = false := by
  have h := delete_best_effort_cleanup happyWorld "/opt/cni" "host-local"
    cfgScenario (Json.obj [("type", Json.str "host-local")])
    rfl rfl (by decide) (by decide) rfl rfl
  exact ⟨h.1, h.2.1, h.2.2.1, h.2.2.2 rfl⟩

/-- C3 amended: on every successful ADD the content of standard output
is exactly the `json.dumps` re-serialization of the parsed IPAM result
followed by the newline appended by `print` — a single JSON document
semantically equal to the child's output, but not byte-for-byte
identical to it in general. -/
theorem add_stdout_reserialized (w : World) (cniPath : String) (cfg : Json)
    (stF : St) (h : addRun w cniPath cfg (initialSt w true) = Step.ok () stF) :
    ∃ j, jsonLoads w.ipamStdout = some j ∧
      stF.stdoutData = jsonDumps j ++ "\n" := by
  obtain ⟨j, hj, hs⟩ := addRun_ok_inv w cniPath cfg (initialSt w true) stF h
  exact ⟨j, hj, hs⟩

/-- Witness for `add_stdout_reserialized` at the happy-ADD scenario. -/
theorem add_stdout_reserialized_witness :
    ∃ j, jsonLoads happyWorld.ipamStdout = some j ∧
      St.stdoutData
        { stdoutData := "\x7b\"ip4\": \x7b\"ip\": \"10.0.0.5/24\"\x7d\x7d\n",
          ipamInvocations := 1,
          ipamResult := some (Json.obj [("ip4",
            Json.obj [("ip", Json.str "10.0.0.5/24")])]),
          endpointPresent := true, vethPresent := true,
          profileAttached := true } = jsonDumps j ++ "\n" :=
  add_stdout_reserialized happyWorld "/opt/cni" cfgScenario
    { stdoutData := "\x7b\"ip4\": \x7b\"ip\": \"10.0.0.5/24\"\x7d\x7d\n",
      ipamInvocations := 1,
      ipamResult := some (Json.obj [("ip4",
        Json.obj [("ip", Json.str "10.0.0.5/24")])]),
      endpointPresent := true, vethPresent := true, profileAttached := true }
    rfl

/-- Taking while a predicate holds skips past a prefix on which it holds everywhere. -/
theorem takeWhile_append_all (f : Char → Bool) (k r : List Char)
    (hk : ∀ c ∈ k, f c = true) :
    (k ++ r).takeWhile f = k ++ r.takeWhile f := by
  induction k with
  | nil => simp
  | cons c t ih =>
    have hc : f c = true := hk c (by simp)
    simp [List.takeWhile_cons, hc, ih (fun x hx => hk x (by simp [hx]))]

/-- Unpacking of a well-formed grammar fragment. -/
theorem argPairOk_parts (k v : List Char) (hp : argPairOk (k, v) = true) :
    k ≠ [] ∧ v ≠ [] ∧ (∀ c ∈ k, isArgChar c = true) ∧
      (∀ c ∈ v, isArgChar c = true) := by
  have h := hp
  simp only [argPairOk, Bool.and_eq_true, Bool.not_eq_true'] at h
  refine ⟨?_, ?_, ?_, ?_⟩
  · intro hnil
    rw [hnil] at h
    simp at h
  · intro hnil
    rw [hnil] at h
    simp at h
  · simpa [List.all_eq_true] using h.1.2
  · simpa [List.all_eq_true] using h.2

/-- The regex matches a rendered fragment followed by a separator, capturing exactly the fragment and consuming the separator. -/
theorem matchHere_render_mid (k v r : List Char) (hp : argPairOk (k, v) = true) :
    matchHere (k ++ '=' :: (v ++ ';' :: r)) = some ((k, v), r) := by
  obtain ⟨hk1, hv1, hk2, hv2⟩ := argPairOk_parts k v hp
  have ht1 : (k ++ '=' :: (v ++ ';' :: r)).takeWhile isArgChar = k := by
    rw [takeWhile_append_all isArgChar k _ hk2]
    simp [List.takeWhile_cons, isArgChar]
  have ht2 : (v ++ ';' :: r).takeWhile isArgChar = v := by
    rw [takeWhile_append_all isArgChar v _ hv2]
    simp [List.takeWhile_cons, isArgChar]
  simp only [matchHere, ht1]
  rw [if_neg (by simpa using hk1)]
  rw [List.drop_left]
  simp only [ht2]
  rw [if_neg (by simpa using hv1)]
  rw [List.drop_left]
  rfl

/-- The regex matches a rendered final fragment at the end of the subject, capturing exactly the fragment. -/
theorem matchHere_render_last (k v : List Char) (hp : argPairOk (k, v) = true) :
    matchHere (k ++ '=' :: v) = some ((k, v), []) := by
  obtain ⟨hk1, hv1, hk2, hv2⟩ := argPairOk_parts k v hp
  have ht1 : (k ++ '=' :: v).takeWhile isArgChar = k := by
    rw [takeWhile_append_all isArgChar k _ hk2]
    simp [List.takeWhile_cons, isArgChar]
  have ht2 : v.takeWhile isArgChar = v := by
    have h2 := takeWhile_append_all isArgChar v [] hv2
    simpa using h2
  simp only [matchHere, ht1]
  rw [if_neg (by simpa using hk1)]
  rw [List.drop_left]
  simp only [ht2]
  rw [if_neg (by simpa using hv1)]
  rw [List.drop_length]

/-- The scan of the empty subject finds nothing. -/
theorem findallAux_nil_fuel (fuel : Nat) : findallAux fuel [] = [] := by
  cases fuel <;> rfl

/-- Unfolding of one scan step. -/
theorem findallAux_succ (fuel : Nat) (s : List Char) :
    findallAux (fuel + 1) s =
      (match matchHere s with
      | some (kv, rest) => kv :: findallAux fuel rest
      | none =>
        match s with
        | [] => []
        | _ :: t => findallAux fuel t) := rfl

/-- On a rendering of well-formed fragments, the scan of `re.findall` captures exactly those fragments in order. -/
theorem findallAux_render (ps : List (List Char × List Char)) :
    ∀ fuel, (∀ p ∈ ps, argPairOk p = true) → ps ≠ [] →
      (renderArgs ps).length ≤ fuel → findallAux fuel (renderArgs ps) = ps := by
  induction ps with
  | nil =>
    intro fuel hok hne hfuel
    exact absurd rfl hne
  | cons p rest ih =>
    intro fuel hok hne hfuel
    obtain ⟨k, v⟩ := p
    cases rest with
    | nil =>
      cases fuel with
      | zero =>
        exfalso
        simp [renderArgs] at hfuel
      | succ f =>
        have hrw : renderArgs [(k, v)] = k ++ '=' :: v := rfl
        rw [hrw] at hfuel ⊢
        rw [findallAux_succ]
        simp only [matchHere_render_last k v (hok (k, v) (by simp))]
        simp [findallAux_nil_fuel]
    | cons q rest2 =>
      cases fuel with
      | zero =>
        exfalso
        simp [renderArgs] at hfuel
      | succ f =>
        have hrw : renderArgs ((k, v) :: q :: rest2) =
            k ++ '=' :: (v ++ ';' :: renderArgs (q :: rest2)) := by
          simp [renderArgs]
        rw [hrw] at hfuel ⊢
        rw [findallAux_succ]
        simp only [matchHere_render_mid k v _ (hok (k, v) (by simp))]
        have hlen : (renderArgs (q :: rest2)).length ≤ f := by
          simp [List.length_append] at hfuel
          omega
        rw [ih f (fun p hp => hok p (by simp [hp])) (by simp) hlen]

/-- C7 amended: for every `CNI_ARGS` string that is well-formed per the
grammar, the captured groups of `CNI_ARGS_RE.findall` are exactly the
grammar's `KEY=VALUE` fragments in order, and `parse_cni_args` stores
them into the dictionary under the stripped key with the stripped value
(so a repeated key keeps its last value rather than one entry per
captured group); the empty string yields the empty mapping and
unparseable fragments are skipped. -/
theorem cni_args_wellformed_parse (ps : List (List Char × List Char))
    (hok : ∀ p ∈ ps, argPairOk p = true) (hne : ps ≠ []) :
    pyFindall (String.mk (renderArgs ps)) =
      ps.map (fun p => (String.mk p.1, String.mk p.2)) ∧
    parse_cni_args (String.mk (renderArgs ps)) =
      ps.foldl (fun m p =>
        dictInsert m (String.mk (pyStrip p.1)) (String.mk (pyStrip p.2))) [] ∧
    parse_cni_args "" = [] ∧
    parse_cni_args "!!;FOO=BAR" = [("FOO", "BAR")] := by
  have hf : findallCore (renderArgs ps) = ps :=
    findallAux_render ps (renderArgs ps).length hok hne le_rfl
  refine ⟨?_, ?_, by decide, by decide⟩
  · show (findallCore (renderArgs ps)).map _ = _
    rw [hf]
  · show (findallCore (renderArgs ps)).foldl _ [] = _
    rw [hf]

/-- Witness for `cni_args_wellformed_parse` on two distinct fragments. -/
theorem cni_args_wellformed_parse_witness :
    pyFindall (String.mk (renderArgs
      [("FOO".data, "BAR".data), ("ABC".data, "123".data)])) =
      [("FOO", "BAR"), ("ABC", "123")] ∧
    parse_cni_args (String.mk (renderArgs
      [("FOO".data, "BAR".data), ("ABC".data, "123".data)])) =
      [("FOO", "BAR"), ("ABC", "123")] := by
  have h := cni_args_wellformed_parse
    [("FOO".data, "BAR".data), ("ABC".data, "123".data)] (by decide) (by decide)
  constructor
  · rw [h.1]
    decide
  · rw [h.2.1]
    decide

/-- Replacing the binding of one key leaves lookups of other keys unchanged. -/
theorem dictGet_map_replace_ne (k0 v k : String) (hk : ¬k0 = k) :
    ∀ m : List (String × String),
      dictGet (m.map (fun p => if p.1 = k0 then (k0, v) else p)) k =
        dictGet m k := by
  intro m
  induction m with
  | nil => rfl
  | cons a t ih =>
    by_cases ha : a.1 = k0
    · simp [dictGet, ha, ih, hk]
    · simp [dictGet, ha, ih]

/-- Replacing the binding of a present key makes its lookup the new value. -/
theorem dictGet_map_replace_eq (k0 v : String) :
    ∀ m : List (String × String),
      m.any (fun p => p.1 == k0) = true →
      dictGet (m.map (fun p => if p.1 = k0 then (k0, v) else p)) k0 =
        some v := by
  intro m
  induction m with
  | nil => simp
  | cons a t ih =>
    intro hany
    by_cases ha : a.1 = k0
    · simp [dictGet, ha]
    · have ht : t.any (fun p => p.1 == k0) = true := by
        simpa [List.any_cons, ha] using hany
      simp [dictGet, ha, ih ht]

/-- Appending a binding leaves lookups of other keys unchanged. -/
theorem dictGet_append_single_ne (k0 v k : String) (hk : ¬k0 = k) :
    ∀ m : List (String × String),
      dictGet (m ++ [(k0, v)]) k = dictGet m k := by
  intro m
  induction m with
  | nil => simp [dictGet, hk]
  | cons a t ih => simp [dictGet, ih]

/-- Appending a binding for an absent key makes its lookup the new value. -/
theorem dictGet_append_single_eq (k0 v : String) :
    ∀ m : List (String × String),
      m.any (fun p => p.1 == k0) = false →
      dictGet (m ++ [(k0, v)]) k0 = some v := by
  intro m
  induction m with
  | nil => simp [dictGet]
  | cons a t ih =>
    intro hany
    have ha : ¬a.1 = k0 := by
      intro h
      simp [List.any_cons, h] at hany
    have ht : t.any (fun p => p.1 == k0) = false := by
      simpa [List.any_cons, ha] using hany
    simp [dictGet, ha, ih ht]

/-- Dictionary assignment followed by lookup: the assigned key reads the new value, every other key is unchanged. -/
theorem dictGet_dictInsert (m : List (String × String)) (k0 v k : String) :
    dictGet (dictInsert m k0 v) k =
      if k0 = k then some v else dictGet m k := by
  unfold dictInsert
  split
  case isTrue hany =>
    by_cases hk : k0 = k
    · subst hk
      rw [if_pos rfl]
      exact dictGet_map_replace_eq k0 v m hany
    · rw [if_neg hk]
      exact dictGet_map_replace_ne k0 v k hk m
  case isFalse hany =>
    by_cases hk : k0 = k
    · subst hk
      rw [if_pos rfl]
      exact dictGet_append_single_eq k0 v m (by simpa only [Bool.not_eq_true] using hany)
    · rw [if_neg hk]
      exact dictGet_append_single_ne k0 v k hk m

/-- The last element of a nonempty list with an explicit head. -/
theorem getLast?_cons_eq {α : Type} (a : α) (l : List α) :
    (a :: l).getLast? = some (l.getLast?.getD a) := by
  induction l generalizing a with
  | nil => rfl
  | cons b t ih =>
    rw [List.getLast?_cons_cons, ih b]
    simp

/-- Folding dictionary assignments over a pair list: each key ends bound to the value of its last occurrence. -/
theorem dictGet_foldl_dictInsert {α : Type} (f g : α → String) (ps : List α)
    (k : String) :
    ∀ m, dictGet (ps.foldl (fun m p => dictInsert m (f p) (g p)) m) k =
      (match (ps.filter (fun p => f p == k)).getLast? with
       | some p => some (g p)
       | none => dictGet m k) := by
  induction ps with
  | nil => intro m; rfl
  | cons p rest ih =>
    intro m
    rw [List.foldl_cons, ih]
    by_cases hf : f p = k
    · rw [List.filter_cons_of_pos (by simp [hf])]
      rw [getLast?_cons_eq]
      cases hl : (rest.filter (fun p => f p == k)).getLast? with
      | some q => simp [hl]
      | none => simp [hl, dictGet_dictInsert, hf]
    · rw [List.filter_cons_of_neg (by simp [hf])]
      cases hl : (rest.filter (fun p => f p == k)).getLast? with
      | some q => simp [hl]
      | none => simp [hl, dictGet_dictInsert, hf]

/-- Every entry after an assignment is an old entry or the assigned pair. -/
theorem mem_dictInsert (m : List (String × String)) (k0 v : String)
    (p : String × String) (h : p ∈ dictInsert m k0 v) :
    p ∈ m ∨ p = (k0, v) := by
  unfold dictInsert at h
  split at h
  · obtain ⟨q, hq, hfq⟩ := List.mem_map.mp h
    by_cases hq0 : q.1 = k0
    · right
      rw [← hfq]
      simp [hq0]
    · left
      rw [← hfq]
      simp only [hq0, if_false]
      exact hq
  · rcases List.mem_append.mp h with h | h
    · exact Or.inl h
    · right
      simpa using h

/-- Every entry after folding assignments stems from the initial dictionary or from one of the assigned pairs. -/
theorem mem_foldl_dictInsert {α : Type} (f g : α → String) (ps : List α) :
    ∀ m (p : String × String),
      p ∈ ps.foldl (fun m q => dictInsert m (f q) (g q)) m →
      p ∈ m ∨ ∃ q ∈ ps, p = (f q, g q) := by
  induction ps with
  | nil =>
    intro m p h
    exact Or.inl h
  | cons q rest ih =>
    intro m p h
    rcases ih _ p h with h2 | ⟨q2, hq2, rfl⟩
    · rcases mem_dictInsert _ _ _ _ h2 with h3 | rfl
      · exact Or.inl h3
      · exact Or.inr ⟨q, by simp, rfl⟩
    · exact Or.inr ⟨q2, by simp [hq2], rfl⟩

/-- C10: for every `CNI_ARGS` string, looking up a key in the parsed
mapping yields the stripped value of the last captured fragment whose
stripped key matches (last write wins), and every stored entry is the
stripped key and stripped value of some captured fragment. -/
theorem cni_args_last_write_wins (s k : String) :
    dictGet (parse_cni_args s) k =
      (match ((findallCore s.data).filter
          (fun p => String.mk (pyStrip p.1) == k)).getLast? with
        | some p => some (String.mk (pyStrip p.2))
        | none => none) ∧
    ∀ p ∈ parse_cni_args s, ∃ q ∈ findallCore s.data,
      p = (String.mk (pyStrip q.1), String.mk (pyStrip q.2)) := by
  constructor
  · have h := dictGet_foldl_dictInsert (fun p => String.mk (pyStrip p.1))
      (fun p => String.mk (pyStrip p.2)) (findallCore s.data) k
    refine (h []).trans ?_
    cases ((findallCore s.data).filter
        (fun p => String.mk (pyStrip p.1) == k)).getLast? <;> rfl
  · intro p hp
    have hp2 : p ∈ (findallCore s.data).foldl
        (fun m q => dictInsert m (String.mk (pyStrip q.1))
          (String.mk (pyStrip q.2))) [] := hp
    rcases mem_foldl_dictInsert
      (fun q : List Char × List Char => String.mk (pyStrip q.1))
      (fun q : List Char × List Char => String.mk (pyStrip q.2))
      (findallCore s.data) [] p hp2 with h | h
    · simp at h
    · exact h

/-- Witness for `cni_args_last_write_wins`: with a repeated padded key
the lookup returns the stripped value of the last fragment, and the
stored entry stems from a captured fragment. -/
theorem cni_args_last_write_wins_witness :
    dictGet (parse_cni_args "A=1; A = 2 ") "A" = some "2" ∧
    ∃ q ∈ findallCore "A=1; A = 2 ".data,
      ("A", "2") = (String.mk (pyStrip q.1), String.mk (pyStrip q.2)) := by
  constructor
  · rw [(cni_args_last_write_wins "A=1; A = 2 " "A").1]
    decide
  · exact (cni_args_last_write_wins "A=1; A = 2 " "A").2 ("A", "2") (by decide)

end CalicoCni
